import Mathlib

/-!
# Verification of the cboe trail-search client

Shallow embedding of the React/TypeScript client of the cboe trail-search
application, covering:

* the `StreamEvent` tagged union (`client/src/types/index.ts`),
* the stream-event handler, chunk processing, submission guard, error catch
  and cancellation of `ResultsContext.handleSubmit` / `cancelStreaming`
  (`client/src/contexts/ResultsContext.tsx`; the hook `useTrailSearch.ts`
  contains the same logic inline),
* the search-form validation `validateQuery` (`SearchForm.tsx`) and the zod
  `searchSchema` (`client/src/schemas/index.ts`) with the bounds from
  `client/src/constants/validation.ts`,
* the retry helper `calculateDelay` / `TrailApiService.fetchWithRetry`
  (`client/src/services` module).

JavaScript `number` payloads are carried opaquely (never computed with) and
are represented by `Rat`; `Record<string, any>` payloads by association
lists over a JSON value type.
-/

namespace Cboe

/-- JavaScript numbers as they appear in opaque data payloads.  The client
code moves these values around but never performs arithmetic on them, so a
faithful exact representation of decimal JSON literals suffices. -/
abbrev JSNumber := Rat

/-- JSON values, for the `Record<string, any>` payload fields. -/
inductive JsonValue where
  | null
  | bool (b : Bool)
  | num (n : JSNumber)
  | str (s : String)
  | arr (elems : List JsonValue)
  | obj (fields : List (String × JsonValue))

/-- Interface `Trail` from `client/src/types/index.ts` (lines 1–45).  Optional
TypeScript fields (`?`) become `Option`. -/
structure Trail where
  id : JSNumber
  name : String
  distance_miles : JSNumber
  elevation_gain_m : JSNumber
  difficulty : String
  dogs_allowed : Bool
  route_type : String
  features : List String
  latitude : JSNumber
  longitude : JSNumber
  description_snippet : String
  why : String
  city : Option String := none
  county : Option String := none
  state : Option String := none
  region : Option String := none
  country : Option String := none
  parking_available : Option Bool := none
  parking_type : Option String := none
  restrooms : Option Bool := none
  water_available : Option Bool := none
  picnic_areas : Option Bool := none
  camping_available : Option Bool := none
  entry_fee : Option Bool := none
  permit_required : Option Bool := none
  seasonal_access : Option String := none
  accessibility : Option String := none
  surface_type : Option String := none
  trail_markers : Option Bool := none
  loop_trail : Option Bool := none
  managing_agency : Option String := none
  website_url : Option String := none
  phone_number : Option String := none

/-- Interface `ParsedFilters` from `client/src/types/index.ts` (lines 47–57). -/
structure ParsedFilters where
  distance_cap_miles : Option JSNumber := none
  elevation_cap_m : Option JSNumber := none
  difficulty : Option String := none
  route_type : Option String := none
  features : Option (List String) := none
  dogs_allowed : Option Bool := none
  radius_miles : Option JSNumber := none
  center_lat : Option JSNumber := none
  center_lng : Option JSNumber := none

/-- The `function_call` field of a `ToolTrace`
(`client/src/types/index.ts`, lines 65–69). -/
structure FunctionCall where
  name : String
  arguments : List (String × JsonValue)
  extraction_confidence : Option JSNumber := none

/-- Interface `ToolTrace` from `client/src/types/index.ts` (lines 59–76). -/
structure ToolTrace where
  tool : String
  duration_ms : JSNumber
  result_count : Option JSNumber := none
  input_parameters : Option (List (String × JsonValue)) := none
  reasoning : Option String := none
  function_call : Option FunctionCall := none
  search_filters : Option (List (String × JsonValue)) := none
  database_query : Option String := none
  ai_confidence : Option JSNumber := none
  processing_steps : Option (List String) := none
  errors : Option (List String) := none
  success : Bool

/-- The string literals of the `type` union of `StreamEvent`
(`client/src/types/index.ts`, line 79):
`type: 'start' | 'token' | 'tool_trace' | 'done'`. -/
def streamEventTypeStrings : List String :=
  ["start", "token", "tool_trace", "done"]

/-- Interface `StreamEvent` from `client/src/types/index.ts` (lines 78–87).  The
`type` field is kept as a string: at runtime the parsed JSON may carry any
tag and the handler dispatches by string comparison with a silent
fall-through. -/
structure StreamEvent where
  type : String
  request_id : Option String := none
  content : Option String := none
  results : Option (List Trail) := none
  parsed_filters : Option ParsedFilters := none
  tool_traces : Option (List ToolTrace) := none
  tool_trace : Option ToolTrace := none
  errors : Option (List String) := none

/-- The state held by `ResultsProvider` (`ResultsContext.tsx`, lines 33–42)
that the search flow touches.  `abortActive` models
`abortControllerRef.current !== null`. -/
structure ResultsState where
  streamContent : String
  trails : List Trail
  parsedFilters : Option ParsedFilters
  toolTraces : List ToolTrace
  requestId : Option String
  isStreaming : Bool
  abortActive : Bool

/-- The provider's initial state (`useState` initialisers,
`ResultsContext.tsx` lines 33–42). -/
def initialState : ResultsState :=
  { streamContent := ""
    trails := []
    parsedFilters := none
    toolTraces := []
    requestId := none
    isStreaming := false
    abortActive := false }

/-- JavaScript `x || null` on an optional string: `undefined` and the empty
string (both falsy) give `null`. -/
def jsStringOrNull : Option String → Option String
  | some s => if s = "" then none else some s
  | none => none

/-- Function `handleStreamEvent` (`ResultsContext.tsx`, lines 114–135; the identical
dispatch appears inline in `useTrailSearch.handleSubmit`, lines 80–99):

```
if (data.type === 'start') { setRequestId(data.request_id || null); }
else if (data.type === 'token') { setStreamContent(prev => prev + (data.content || '')); }
else if (data.type === 'tool_trace') {
  if (data.tool_trace) { const trace = data.tool_trace; setToolTraces(prev => [...prev, trace]); } }
else if (data.type === 'done') {
  setTrails(data.results || []);
  setParsedFilters(data.parsed_filters || null);
  if (data.tool_traces && data.tool_traces.length > 0) { setToolTraces(data.tool_traces); }
  setIsStreaming(false);
  abortControllerRef.current = null; }
```

An event whose tag matches none of the four comparisons falls through all
branches and leaves the state unchanged. -/
def handleStreamEvent (s : ResultsState) (e : StreamEvent) : ResultsState :=
  if e.type = "start" then
    { s with requestId := jsStringOrNull e.request_id }
  else if e.type = "token" then
    { s with streamContent := s.streamContent ++ (e.content.getD "") }
  else if e.type = "tool_trace" then
    match e.tool_trace with
    | some trace => { s with toolTraces := s.toolTraces ++ [trace] }
    | none => s
  else if e.type = "done" then
    { s with
      trails := e.results.getD []
      parsedFilters := e.parsed_filters
      toolTraces :=
        match e.tool_traces with
        | some ts => if 0 < ts.length then ts else s.toolTraces
        | none => s.toolTraces
      isStreaming := false
      abortActive := false }
  else s

/-- Folding the event handler over a sequence of events, in arrival order. -/
def processEvents (s : ResultsState) (events : List StreamEvent) : ResultsState :=
  events.foldl handleStreamEvent s

/-- JavaScript `String.prototype.trim()`: strip leading and trailing
whitespace. -/
def jsTrim (s : String) : String :=
  ⟨((s.data.dropWhile Char.isWhitespace).reverse.dropWhile Char.isWhitespace).reverse⟩

/-- JavaScript `String.prototype.startsWith(pre)`. -/
def jsStartsWith (s pre : String) : Bool :=
  pre.data.isPrefixOf s.data

/-- JavaScript `String.prototype.split(c)` for a one-character separator. -/
def jsSplitChar (s : String) (c : Char) : List String :=
  (s.data.splitOn c).map String.mk

/-- One iteration of the `for (const line of lines)` loop of
`processStreamChunk` (`ResultsContext.tsx`, lines 97–111; the identical loop
appears inline in `useTrailSearch.handleSubmit`, lines 75–106):

```
if (line.startsWith('data: ')) {
  try { const data: StreamEvent = JSON.parse(line.substring(6));
        handleStreamEvent(data); }
  catch (parseError) { console.error(...); continue; } }
```

The behaviour of `JSON.parse` followed by the implicit cast to `StreamEvent`
is abstracted as a function `parse : String → Option StreamEvent`; `none`
models a thrown parse error, which is caught and skipped. -/
def stepLine (parse : String → Option StreamEvent) (s : ResultsState)
    (line : String) : ResultsState :=
  if jsStartsWith line "data: " then
    match parse (line.drop 6) with
    | some e => handleStreamEvent s e
    | none => s
  else s

/-- Function `processStreamChunk` (`ResultsContext.tsx`, lines 97–111):
`const lines = chunk.split('\n');` followed by the per-line loop. -/
def processStreamChunk (parse : String → Option StreamEvent)
    (s : ResultsState) (chunk : String) : ResultsState :=
  (jsSplitChar chunk '\n').foldl (stepLine parse) s

/-- The `catch` block of `handleSubmit` (`ResultsContext.tsx`, lines
145–156; identical in `useTrailSearch.handleSubmit`, lines 108–119):

```
if (error instanceof Error && error.name === 'AbortError') {
  setStreamContent('Request timed out. Please try again.');
} else {
  setStreamContent('Error connecting to server. Please try again.');
}
setIsStreaming(false);
abortControllerRef.current = null;
```

Note that `setStreamContent` is called with a plain string here: the
delivered content is replaced, not appended to. -/
def catchBranch (s : ResultsState) (isAbortError : Bool) : ResultsState :=
  { s with
    streamContent :=
      if isAbortError then "Request timed out. Please try again."
      else "Error connecting to server. Please try again."
    isStreaming := false
    abortActive := false }

/-- Function `cancelStreaming` (`ResultsContext.tsx`, lines 159–166; identical in
`useTrailSearch`, lines 122–129):

```
if (abortControllerRef.current) {
  abortControllerRef.current.abort();
  abortControllerRef.current = null;
  setIsStreaming(false);
  setStreamContent(prev => prev + '\n\n[Request cancelled by user]');
}
```
-/
def cancelStreaming (s : ResultsState) : ResultsState :=
  if s.abortActive then
    { s with
      abortActive := false
      isStreaming := false
      streamContent := s.streamContent ++ "\n\n[Request cancelled by user]" }
  else s

/-- How a single `handleSubmit` request run ends: the reader reports `done`
and the loop exits normally, or the `fetch`/`read` chain throws (an
`AbortError` from the timeout/abort controller, or any other error). -/
inductive RequestEnd where
  | normal
  | thrown (isAbortError : Bool)

/-- One full run of `handleSubmit` (`ResultsContext.tsx`, lines 53–156),
parameterised by the sequence of stream events successfully parsed from the
response body (in arrival order) and by how the run ends:

* line 54: `if (!data.query.trim() || isStreaming) return;` — the guard
  precedes the `fetch`, so a rejected submission changes nothing;
* lines 57–62: clear previous results and set `isStreaming`;
* lines 70–71: a fresh `AbortController` is installed (`abortActive`);
* lines 138–144: the events of the body are handled in order;
* lines 145–156: on a thrown error the `catch` block runs. -/
def handleSubmitRun (s : ResultsState) (query : String)
    (events : List StreamEvent) (ending : RequestEnd) : ResultsState :=
  if jsTrim query = "" || s.isStreaming then s
  else
    let cleared : ResultsState :=
      { streamContent := ""
        trails := []
        parsedFilters := none
        toolTraces := []
        requestId := none
        isStreaming := true
        abortActive := true }
    let streamed := processEvents cleared events
    match ending with
    | .normal => streamed
    | .thrown isAbortError => catchBranch streamed isAbortError

/-- Constant `SEARCH_QUERY_MAX_LENGTH` (`client/src/constants/validation.ts`, line 2). -/
def SEARCH_QUERY_MAX_LENGTH : Nat := 500

/-- Constant `SEARCH_QUERY_MIN_LENGTH` (`client/src/constants/validation.ts`, line 3). -/
def SEARCH_QUERY_MIN_LENGTH : Nat := 3

/-- Function `validateQuery` (`SearchForm.tsx`, lines 36–47).  Returns the error
message, the empty string meaning "valid":

```
if (!value.trim()) { return 'Search query is required'; }
if (value.trim().length < 3) { return 'Search query must be at least 3 characters long'; }
if (value.length > 500) { return 'Search query must be less than 500 characters'; }
return '';
```
-/
def validateQuery (value : String) : String :=
  if jsTrim value = "" then "Search query is required"
  else if (jsTrim value).length < 3 then "Search query must be at least 3 characters long"
  else if value.length > 500 then "Search query must be less than 500 characters"
  else ""

/-- The `query` field of the zod `searchSchema`
(`client/src/schemas/index.ts`, lines 33–40):

```
query: z.string()
  .min(SEARCH_QUERY_MIN_LENGTH, ...)
  .max(SEARCH_QUERY_MAX_LENGTH, ...)
  .trim()
```

zod runs the chained checks in order on the current value; `.trim()` is a
transforming check placed after `.min`/`.max`, so the length bounds are
checked on the raw, untrimmed string and the value is trimmed only
afterwards.  `none` models a failed parse (a `ZodError`); `some` carries the
parsed (trimmed) value. -/
def searchSchemaQuery (s : String) : Option String :=
  if s.length < SEARCH_QUERY_MIN_LENGTH then none
  else if s.length > SEARCH_QUERY_MAX_LENGTH then none
  else some (jsTrim s)

/-- Interface `RetryConfig` (`TrailApiService` module, lines 68–72 of the service
file). -/
structure RetryConfig where
  maxRetries : Nat
  baseDelay : Nat
  maxDelay : Nat

/-- Constant `DEFAULT_RETRY_CONFIG` (service file, lines 74–78). -/
def DEFAULT_RETRY_CONFIG : RetryConfig :=
  { maxRetries := 3, baseDelay := 1000, maxDelay := 5000 }

/-- Function `calculateDelay` (service file, lines 81–84):
`Math.min(baseDelay * Math.pow(2, attempt), maxDelay)`. -/
def calculateDelay (attempt : Nat) (baseDelay maxDelay : Nat) : Nat :=
  min (baseDelay * 2 ^ attempt) maxDelay

/-- The outcome of one `fetch` attempt inside `fetchWithRetry`: the attempt
resolves with a value, or throws an error whose `name` is `'AbortError'`
(the timeout abort), or throws any other error (HTTP error, network
failure, JSON parse failure). -/
inductive AttemptOutcome (T : Type) where
  | ok (v : T)
  | abortError
  | otherError

/-- What `fetchWithRetry` does overall: returns a value, throws
`ApiTimeoutError`, or throws the last recorded error after exhausting the
attempts. -/
inductive FetchResult (T : Type) where
  | success (v : T)
  | timeoutError
  | lastError

/-- The loop body of `fetchWithRetry` (service file, lines 97–141),
parameterised by the outcome of each attempt.  `remaining` counts the loop
iterations still allowed after the current one (`attempt` runs from `0` to
`maxRetries`, so the loop starts with `remaining = maxRetries`):

```
for (let attempt = 0; attempt <= retryConfig.maxRetries; attempt++) {
  try { ... return await response.json(); }
  catch (error) {
    lastError = ...;
    if (error instanceof Error && error.name === 'AbortError') { throw new ApiTimeoutError(); }
    if (attempt === retryConfig.maxRetries) { break; }
    const delay = calculateDelay(attempt, retryConfig.baseDelay, retryConfig.maxDelay);
    await new Promise(resolve => setTimeout(resolve, delay)); } }
throw lastError || new ApiNetworkError();
```

Returns the overall result, the list of back-off delays actually slept, and
the number of `fetch` attempts made.  The two patterns below are the same
loop body; the `attempt === maxRetries` break (`remaining = 0`) is only
reached in the non-abort error branch, the other branches having already
returned or thrown. -/
def fetchWithRetryGo {T : Type} (attemptResult : Nat → AttemptOutcome T)
    (cfg : RetryConfig) : Nat → Nat → FetchResult T × List Nat × Nat
  | attempt, 0 =>
    match attemptResult attempt with
    | .ok v => (.success v, [], 1)
    | .abortError => (.timeoutError, [], 1)
    | .otherError => (.lastError, [], 1)
  | attempt, r + 1 =>
    match attemptResult attempt with
    | .ok v => (.success v, [], 1)
    | .abortError => (.timeoutError, [], 1)
    | .otherError =>
      let d := calculateDelay attempt cfg.baseDelay cfg.maxDelay
      let rest := fetchWithRetryGo attemptResult cfg (attempt + 1) r
      (rest.1, d :: rest.2.1, rest.2.2 + 1)

/-- Function `fetchWithRetry` (service file, lines 97–141): run the attempt loop from
`attempt = 0` with `maxRetries` further iterations allowed. -/
def fetchWithRetry {T : Type} (attemptResult : Nat → AttemptOutcome T)
    (cfg : RetryConfig) : FetchResult T × List Nat × Nat :=
  fetchWithRetryGo attemptResult cfg 0 cfg.maxRetries

/-! ## Sample values used in concrete evaluations -/

/-- The state right after `handleSubmit` clears the previous results and
installs the abort controller (`ResultsContext.tsx`, lines 57–71). -/
def clearedState : ResultsState :=
  { streamContent := ""
    trails := []
    parsedFilters := none
    toolTraces := []
    requestId := none
    isStreaming := true
    abortActive := true }

/-- A sample tool trace as the server emits it for the search tool. -/
def sampleTrace : ToolTrace :=
  { tool := "search_trails", duration_ms := 12, result_count := some 5, success := true }

/-- A sample token event carrying the chunk `"Hello"`. -/
def helloTokenEvent : StreamEvent :=
  { type := "token", content := some "Hello" }

/-- A sample `tool_trace` event carrying `sampleTrace`. -/
def traceEvent : StreamEvent :=
  { type := "tool_trace", tool_trace := some sampleTrace }

/-- A `done` event that carries a present but empty `tool_traces` list. -/
def doneEventEmptyTraces : StreamEvent :=
  { type := "done", results := some [], tool_traces := some [] }

/-- A `done` event carrying a final trace list. -/
def doneEventFull : StreamEvent :=
  { type := "done", results := some [], parsed_filters := some {},
    tool_traces := some [sampleTrace] }

/-- An event with the tag `error`, as the §3 spec protocol would emit on
failure.  The client union does not contain this tag. -/
def errorTaggedEvent : StreamEvent :=
  { type := "error", errors := some ["Stream processing failed"] }

/-- A parse function on which every line fails, modelling a `JSON.parse`
that always throws. -/
def parseNone : String → Option StreamEvent := fun _ => none

/-- An attempt oracle on which every fetch attempt times out
(`AbortError`). -/
def alwaysAbort : Nat → AttemptOutcome Unit := fun _ => .abortError

/-- An attempt oracle on which every fetch attempt throws a non-abort error
(HTTP failure, network failure). -/
def alwaysOther : Nat → AttemptOutcome Unit := fun _ => .otherError

/-! ## Helper lemmas -/

/-- Only the `token` branch of the handler touches `streamContent`, and it
appends. -/
theorem handleStreamEvent_streamContent (s : ResultsState) (e : StreamEvent) :
    (handleStreamEvent s e).streamContent =
      s.streamContent ++ (if e.type = "token" then e.content.getD "" else "") := by
  unfold handleStreamEvent
  by_cases h1 : e.type = "start"
  · rw [if_pos h1, if_neg (by rw [h1]; decide)]
    simp
  · rw [if_neg h1]
    by_cases h2 : e.type = "token"
    · rw [if_pos h2, if_pos h2]
    · rw [if_neg h2, if_neg h2]
      by_cases h3 : e.type = "tool_trace"
      · rw [if_pos h3]
        rcases htt : e.tool_trace with _ | t <;> simp [htt]
      · rw [if_neg h3]
        by_cases h4 : e.type = "done"
        · rw [if_pos h4]
          simp
        · rw [if_neg h4]
          simp

/-- The concatenation, in arrival order, of the `content` fields of the
`token` events of a sequence, an absent content counting as empty. -/
def tokenConcat : List StreamEvent → String
  | [] => ""
  | e :: es => (if e.type = "token" then e.content.getD "" else "") ++ tokenConcat es

/-- Processing a sequence of events appends exactly the token contents, in
order, to the content already delivered. -/
theorem processEvents_streamContent (events : List StreamEvent) :
    ∀ s : ResultsState,
      (processEvents s events).streamContent = s.streamContent ++ tokenConcat events := by
  induction events with
  | nil => intro s; simp [processEvents, tokenConcat]
  | cons e es ih =>
    intro s
    have step : processEvents s (e :: es) = processEvents (handleStreamEvent s e) es := rfl
    rw [step, ih, handleStreamEvent_streamContent, tokenConcat, String.append_assoc]

/-! ## Claims -/

/-- C1 (counterexample): the stream-event union consumed by the client does
not contain the tag `error` — it has exactly four tags — and an
`error`-tagged event reaching the handler matches no branch and leaves the
state unchanged, so there is no handling branch for a fifth tag. -/
theorem C1_no_error_tag :
    "error" ∉ streamEventTypeStrings ∧
    streamEventTypeStrings.length = 4 ∧
    handleStreamEvent initialState errorTaggedEvent = initialState := by
  exact ⟨by decide, by decide, rfl⟩

/-- C1 (amended): the Streaming Event consumed by the client is a tagged
union of exactly the four tags start, token, tool_trace and done (there is
no error tag), and the handler has a handling branch for each of the four:
start installs the request id, token appends the chunk content,
tool_trace appends the carried trace, done stores the results and ends
streaming. -/
theorem C1_four_tags_handled :
    ("start" ∈ streamEventTypeStrings ∧ "token" ∈ streamEventTypeStrings ∧
      "tool_trace" ∈ streamEventTypeStrings ∧ "done" ∈ streamEventTypeStrings ∧
      streamEventTypeStrings.length = 4) ∧
    (∀ (s : ResultsState) (e : StreamEvent), e.type = "start" →
      handleStreamEvent s e = { s with requestId := jsStringOrNull e.request_id }) ∧
    (∀ (s : ResultsState) (e : StreamEvent), e.type = "token" →
      handleStreamEvent s e =
        { s with streamContent := s.streamContent ++ e.content.getD "" }) ∧
    (∀ (s : ResultsState) (e : StreamEvent) (t : ToolTrace),
      e.type = "tool_trace" → e.tool_trace = some t →
      handleStreamEvent s e = { s with toolTraces := s.toolTraces ++ [t] }) ∧
    (∀ (s : ResultsState) (e : StreamEvent), e.type = "done" →
      (handleStreamEvent s e).isStreaming = false ∧
      (handleStreamEvent s e).trails = e.results.getD []) := by
  refine ⟨by decide, ?_, ?_, ?_, ?_⟩
  · intro s e h
    unfold handleStreamEvent
    rw [if_pos h]
  · intro s e h
    unfold handleStreamEvent
    rw [if_neg (by rw [h]; decide), if_pos h]
  · intro s e t h ht
    unfold handleStreamEvent
    rw [if_neg (by rw [h]; decide), if_neg (by rw [h]; decide), if_pos h, ht]
  · intro s e h
    unfold handleStreamEvent
    rw [if_neg (by rw [h]; decide), if_neg (by rw [h]; decide),
      if_neg (by rw [h]; decide), if_pos h]
    exact ⟨rfl, rfl⟩

/-- Witness for C1: the amended theorem applied to a concrete start event. -/
theorem C1_four_tags_handled_witness :
    handleStreamEvent initialState { type := "start", request_id := some "req-1" } =
      { initialState with requestId := some "req-1" } := by
  have h := C1_four_tags_handled.2.1 initialState
    { type := "start", request_id := some "req-1" } rfl
  exact h.trans (by rfl)

/-- C4: a form submission whose query trims to the empty string is rejected
by the guard on the first line of `handleSubmit`, before the fetch and
before any stream event is processed: the whole state — in particular
`requestId`, `trails`, `parsedFilters`, `toolTraces` and `streamContent` —
is left exactly as it was, whatever the network would have answered. -/
theorem C4_whitespace_query_rejected :
    ∀ (s : ResultsState) (query : String) (events : List StreamEvent)
      (ending : RequestEnd),
      jsTrim query = "" →
      handleSubmitRun s query events ending = s := by
  intro s query events ending h
  unfold handleSubmitRun
  rw [if_pos]
  rw [h]
  simp

/-- Witness for C4: a whitespace-only query with a pending token event and a
normal ending leaves the initial state untouched. -/
theorem C4_whitespace_query_rejected_witness :
    handleSubmitRun initialState "   " [helloTokenEvent] RequestEnd.normal =
      initialState :=
  C4_whitespace_query_rejected initialState "   " [helloTokenEvent]
    RequestEnd.normal (by decide)

/-- C8: a `tool_trace` event appends exactly the carried trace entry at the
end of the `toolTraces` sequence (and appends nothing when the event carries
no entry); the previous sequence is always a prefix of the new one, so
entries already appended are never mutated or removed by a later
`tool_trace` event. -/
theorem C8_tool_trace_appends :
    ∀ (s : ResultsState) (e : StreamEvent), e.type = "tool_trace" →
      (handleStreamEvent s e).toolTraces = s.toolTraces ++ e.tool_trace.toList ∧
      s.toolTraces <+: (handleStreamEvent s e).toolTraces := by
  intro s e h
  have heq : (handleStreamEvent s e).toolTraces = s.toolTraces ++ e.tool_trace.toList := by
    unfold handleStreamEvent
    rw [if_neg (by rw [h]; decide), if_neg (by rw [h]; decide), if_pos h]
    rcases htt : e.tool_trace with _ | t <;> simp [htt]
  exact ⟨heq, heq ▸ List.prefix_append s.toolTraces e.tool_trace.toList⟩

/-- Witness for C8: a concrete `tool_trace` event appends its entry to the
fresh trace sequence. -/
theorem C8_tool_trace_appends_witness :
    (handleStreamEvent clearedState traceEvent).toolTraces = [sampleTrace] := by
  have h := (C8_tool_trace_appends clearedState traceEvent rfl).1
  exact h.trans (by rfl)

/-- C2 (counterexample): after the token `"Hello"` has been delivered, a
request that ends in the timeout path replaces the delivered content with
the fixed message `"Request timed out. Please try again."`, of which
`"Hello"` is not a prefix — partial token output already delivered is
retracted on the timeout and error paths. -/
theorem C2_timeout_retracts_content :
    (processEvents clearedState [helloTokenEvent]).streamContent = "Hello" ∧
    (handleSubmitRun initialState "hike" [helloTokenEvent]
        (RequestEnd.thrown true)).streamContent =
      "Request timed out. Please try again." ∧
    ¬ ("Hello".data <+:
        (handleSubmitRun initialState "hike" [helloTokenEvent]
          (RequestEnd.thrown true)).streamContent.data) := by
  exact ⟨rfl, rfl, by decide⟩

/-- C2 (amended): for a request that runs to a normal end, the delivered
`streamContent` equals the concatenation, in arrival order, of the content
fields of the token events (absent content counting as empty), and every
stream-event step only extends the content already delivered; the error and
timeout catch paths, however, replace the delivered content with a fixed
message instead of appending to it. -/
theorem C2_streamContent_concatenation :
    (∀ (s : ResultsState) (query : String) (events : List StreamEvent),
      s.isStreaming = false → jsTrim query ≠ "" →
      (handleSubmitRun s query events RequestEnd.normal).streamContent =
        tokenConcat events) ∧
    (∀ (s : ResultsState) (e : StreamEvent),
      ∃ t : String, (handleStreamEvent s e).streamContent = s.streamContent ++ t) ∧
    (∀ s : ResultsState,
      (catchBranch s true).streamContent = "Request timed out. Please try again." ∧
      (catchBranch s false).streamContent =
        "Error connecting to server. Please try again.") := by
  refine ⟨?_, ?_, ?_⟩
  · intro s query events hstream hq
    unfold handleSubmitRun
    rw [if_neg]
    · have h := processEvents_streamContent events clearedState
      exact h.trans (by simp [clearedState])
    · simp [hstream, hq]
  · intro s e
    exact ⟨_, handleStreamEvent_streamContent s e⟩
  · intro s
    exact ⟨rfl, rfl⟩

/-- Witness for C2: a run delivering two tokens and a done event ends with
the two chunks concatenated in arrival order. -/
theorem C2_streamContent_concatenation_witness :
    (handleSubmitRun initialState "easy loop trail"
        [{ type := "start", request_id := some "r1" },
         helloTokenEvent,
         { type := "token", content := some " world" },
         doneEventFull]
        RequestEnd.normal).streamContent = "Hello world" := by
  have h := C2_streamContent_concatenation.1 initialState "easy loop trail"
    [{ type := "start", request_id := some "r1" },
     helloTokenEvent,
     { type := "token", content := some " world" },
     doneEventFull] rfl (by decide)
  exact h.trans (by rfl)

/-- C3 (counterexample): a `done` event that carries a present but empty
`tool_traces` sequence does not set the trace sequence to the carried
(empty) sequence — the accumulated traces are kept instead. -/
theorem C3_done_keeps_accumulated_traces :
    doneEventEmptyTraces.tool_traces = some [] ∧
    (handleStreamEvent { clearedState with toolTraces := [sampleTrace] }
        doneEventEmptyTraces).toolTraces = [sampleTrace] ∧
    [sampleTrace] ≠ ([] : List ToolTrace) := by
  exact ⟨rfl, rfl, by simp⟩

/-- C3 (amended): a `done` event sets the trail results to the carried final
list (empty when absent), sets the resolved filters to the carried
`parsed_filters` (none when absent), and ends streaming; the trace sequence
is set to the carried `tool_traces` only when that field is present and
non-empty — when it is absent or empty, the traces accumulated during
streaming are kept. -/
theorem C3_done_event_effects :
    ∀ (s : ResultsState) (e : StreamEvent), e.type = "done" →
      (handleStreamEvent s e).trails = e.results.getD [] ∧
      (handleStreamEvent s e).parsedFilters = e.parsed_filters ∧
      (handleStreamEvent s e).isStreaming = false ∧
      (∀ ts : List ToolTrace, e.tool_traces = some ts → ts ≠ [] →
        (handleStreamEvent s e).toolTraces = ts) ∧
      (e.tool_traces = none ∨ e.tool_traces = some [] →
        (handleStreamEvent s e).toolTraces = s.toolTraces) := by
  intro s e h
  unfold handleStreamEvent
  rw [if_neg (by rw [h]; decide), if_neg (by rw [h]; decide),
    if_neg (by rw [h]; decide), if_pos h]
  refine ⟨rfl, rfl, rfl, ?_, ?_⟩
  · intro ts hts hne
    rw [hts]
    simp [List.length_pos, hne]
  · rintro (hts | hts) <;> simp [hts]

/-- Witness for C3: a concrete `done` event carrying one final trace entry
replaces the (empty) accumulated sequence and ends streaming. -/
theorem C3_done_event_effects_witness :
    (handleStreamEvent clearedState doneEventFull).toolTraces = [sampleTrace] ∧
    (handleStreamEvent clearedState doneEventFull).isStreaming = false := by
  have h := C3_done_event_effects clearedState doneEventFull rfl
  exact ⟨h.2.2.2.1 [sampleTrace] rfl (by simp), h.2.2.1⟩

/-- C7: the claim matches the spec and the evident intent of
`cancelStreaming` — which aborts the controller, ends streaming and appends
`"\n\n[Request cancelled by user]"` — but the abort it performs makes the
pending `reader.read()` reject with an `AbortError`, and the `catch` block
of `handleSubmit` then runs its `AbortError` branch: the delivered content,
including the just-appended acknowledgment, is replaced with
`"Request timed out. Please try again."`.  Cancellation is therefore
presented to the user as a timeout error, not as a distinct terminal
signal. -/
theorem C7_cancel_overwritten_by_timeout_message :
    (cancelStreaming (processEvents clearedState [helloTokenEvent])).streamContent =
      "Hello\n\n[Request cancelled by user]" ∧
    (cancelStreaming (processEvents clearedState [helloTokenEvent])).isStreaming =
      false ∧
    (catchBranch (cancelStreaming (processEvents clearedState [helloTokenEvent]))
        true).streamContent = "Request timed out. Please try again." ∧
    ¬ ("[Request cancelled by user]".data <:+:
        (catchBranch (cancelStreaming (processEvents clearedState [helloTokenEvent]))
          true).streamContent.data) := by
  exact ⟨rfl, rfl, rfl, by decide⟩

/-- C9: a line of a stream chunk that begins with `"data: "` but whose
remainder fails to parse is skipped without changing any state, and
processing continues with the remaining lines of the chunk — a single
malformed server-sent line never terminates the stream or the request. -/
theorem C9_malformed_line_skipped :
    ∀ (parse : String → Option StreamEvent) (s : ResultsState) (bad : String)
      (pre post : List String) (chunk : String),
      jsStartsWith bad "data: " = true →
      parse (bad.drop 6) = none →
      stepLine parse s bad = s ∧
      List.foldl (stepLine parse) s (pre ++ bad :: post) =
        List.foldl (stepLine parse) s (pre ++ post) ∧
      processStreamChunk parse s chunk =
        List.foldl (stepLine parse) s (jsSplitChar chunk '\n') := by
  intro parse s bad pre post chunk hb hp
  have hstep : ∀ s' : ResultsState, stepLine parse s' bad = s' := by
    intro s'
    unfold stepLine
    rw [if_pos hb, hp]
  refine ⟨hstep s, ?_, rfl⟩
  rw [List.foldl_append, List.foldl_append, List.foldl_cons, hstep]

/-- Witness for C9: a concrete chunk whose middle line is malformed is
processed exactly as the chunk without that line. -/
theorem C9_malformed_line_skipped_witness :
    List.foldl (stepLine parseNone) initialState
        (["event: x"] ++ "data: not-json" :: ["tail"]) =
      List.foldl (stepLine parseNone) initialState (["event: x"] ++ ["tail"]) :=
  (C9_malformed_line_skipped parseNone initialState "data: not-json"
    ["event: x"] ["tail"] "" (by decide) rfl).2.1

/-- Modelled from the spec for comparison with the code: the inbound
contract "`text` must be non-empty after trimming and bounded in length"
with the 500-character bound named by the claim. -/
def specAcceptsQuery (s : String) : Prop :=
  jsTrim s ≠ "" ∧ s.length ≤ 500

/-- C5 (counterexample): the two-character query `"ab"` is non-empty after
trimming and within the 500-character bound, yet both `validateQuery` and
the zod `searchSchema` reject it — the code additionally enforces a
3-character minimum. -/
theorem C5_two_char_query_rejected :
    specAcceptsQuery "ab" ∧
    validateQuery "ab" = "Search query must be at least 3 characters long" ∧
    searchSchemaQuery "ab" = none := by
  exact ⟨⟨by decide, by decide⟩, rfl, rfl⟩

/-- C5 (amended): `validateQuery` accepts (returns the empty error message)
exactly when the trimmed text has length at least 3 and the raw text has
length at most 500; the zod `searchSchema` accepts the query exactly when
its raw length is between 3 and 500.  Rejection yields a client-error
message (respectively a failed zod parse), and the query is not submitted. -/
theorem C5_validation_bounds :
    ∀ s : String,
      (validateQuery s = "" ↔ 3 ≤ (jsTrim s).length ∧ s.length ≤ 500) ∧
      ((searchSchemaQuery s).isSome = true ↔ 3 ≤ s.length ∧ s.length ≤ 500) := by
  intro s
  constructor
  · unfold validateQuery
    by_cases h1 : jsTrim s = ""
    · rw [if_pos h1]
      constructor
      · intro habs
        exact absurd habs (by decide)
      · intro hc
        rw [h1] at hc
        exact absurd hc.1 (by decide)
    · rw [if_neg h1]
      by_cases h2 : (jsTrim s).length < 3
      · rw [if_pos h2]
        constructor
        · intro habs
          exact absurd habs (by decide)
        · intro hc
          exact absurd hc.1 (by omega)
      · rw [if_neg h2]
        by_cases h3 : s.length > 500
        · rw [if_pos h3]
          constructor
          · intro habs
            exact absurd habs (by decide)
          · intro hc
            exact absurd hc.2 (by omega)
        · rw [if_neg h3]
          constructor
          · intro _
            exact ⟨by omega, by omega⟩
          · intro _
            rfl
  · unfold searchSchemaQuery SEARCH_QUERY_MIN_LENGTH SEARCH_QUERY_MAX_LENGTH
    by_cases h1 : s.length < 3
    · rw [if_pos h1]
      simp only [Option.isSome_none, Bool.false_eq_true, false_iff]
      omega
    · rw [if_neg h1]
      by_cases h2 : s.length > 500
      · rw [if_pos h2]
        simp only [Option.isSome_none, Bool.false_eq_true, false_iff]
        omega
      · rw [if_neg h2]
        simp only [Option.isSome_some, true_iff]
        omega

/-- Witness for C5: a realistic query passes both validators. -/
theorem C5_validation_bounds_witness :
    validateQuery "easy loop trail" = "" ∧
    (searchSchemaQuery "easy loop trail").isSome = true := by
  obtain ⟨h1, h2⟩ := C5_validation_bounds "easy loop trail"
  exact ⟨h1.mpr ⟨by decide, by decide⟩, h2.mpr ⟨by decide, by decide⟩⟩

/-- C10: the zod `searchSchema` checks its 3-character minimum and
500-character maximum on the raw, untrimmed query and trims only
afterwards: every raw query within the bounds parses to its trimmed value,
and in particular the padded two-character query `"ab "` is accepted even
though its trimmed length is below the minimum. -/
theorem C10_schema_checks_raw_length :
    (∀ s : String,
      SEARCH_QUERY_MIN_LENGTH ≤ s.length → s.length ≤ SEARCH_QUERY_MAX_LENGTH →
      searchSchemaQuery s = some (jsTrim s)) ∧
    searchSchemaQuery "ab " = some "ab" ∧
    (jsTrim "ab ").length < SEARCH_QUERY_MIN_LENGTH := by
  refine ⟨?_, by decide, by decide⟩
  intro s h1 h2
  unfold searchSchemaQuery
  unfold SEARCH_QUERY_MIN_LENGTH at h1 ⊢
  unfold SEARCH_QUERY_MAX_LENGTH at h2 ⊢
  rw [if_neg (by omega), if_neg (by omega)]

/-- Witness for C10: the raw three-character query with a trailing space is
accepted and trimmed to two characters. -/
theorem C10_schema_checks_raw_length_witness :
    searchSchemaQuery "hi " = some "hi" :=
  (C10_schema_checks_raw_length.1 "hi " (by decide) (by decide)).trans (by decide)

/-- Whatever the iteration budget, a first attempt that throws an
`AbortError` stops the loop at once with the timeout error, one attempt
made and no delay slept. -/
theorem fetchWithRetryGo_abort {T : Type} (a : Nat → AttemptOutcome T)
    (cfg : RetryConfig) (attempt remaining : Nat)
    (h : a attempt = AttemptOutcome.abortError) :
    fetchWithRetryGo a cfg attempt remaining =
      (FetchResult.timeoutError, [], 1) := by
  cases remaining <;> simp [fetchWithRetryGo, h]

/-- Attempt count and back-off schedule of the retry loop: starting at
`attempt` with `remaining` further iterations allowed, the loop makes
between 1 and `remaining + 1` attempts, sleeps one delay between
consecutive attempts, and the k-th delay slept is
`calculateDelay (attempt + k)`. -/
theorem fetchWithRetryGo_schedule {T : Type} (a : Nat → AttemptOutcome T)
    (cfg : RetryConfig) :
    ∀ remaining attempt : Nat,
      1 ≤ (fetchWithRetryGo a cfg attempt remaining).2.2 ∧
      (fetchWithRetryGo a cfg attempt remaining).2.2 ≤ remaining + 1 ∧
      (fetchWithRetryGo a cfg attempt remaining).2.1.length =
        (fetchWithRetryGo a cfg attempt remaining).2.2 - 1 ∧
      ∀ k : Nat, k < (fetchWithRetryGo a cfg attempt remaining).2.1.length →
        (fetchWithRetryGo a cfg attempt remaining).2.1.get? k =
          some (calculateDelay (attempt + k) cfg.baseDelay cfg.maxDelay) := by
  intro remaining
  induction remaining with
  | zero =>
    intro attempt
    rcases h : a attempt with v | _ | _ <;> simp [fetchWithRetryGo, h]
  | succ r ih =>
    intro attempt
    rcases h : a attempt with v | _ | _
    · simp [fetchWithRetryGo, h]
    · simp [fetchWithRetryGo, h]
    · simp only [fetchWithRetryGo, h]
      obtain ⟨ih1, ih2, ih3, ih4⟩ := ih (attempt + 1)
      refine ⟨by simp, by simpa using ih2, by simp [ih3]; omega, ?_⟩
      intro k hk
      match k with
      | 0 => simp
      | k' + 1 =>
        simp only [List.get?_cons_succ, List.length_cons] at hk ⊢
        have hk' : k' < (fetchWithRetryGo a cfg (attempt + 1) r).2.1.length := by
          omega
        rw [ih4 k' hk']
        have harith : attempt + 1 + k' = attempt + (k' + 1) := by omega
        rw [harith]

/-- C6 (counterexample): a request whose fetch attempts time out
(`AbortError`) is not retried at all — `fetchWithRetry` throws
`ApiTimeoutError` after exactly one attempt with no back-off delay, even
though the default configuration would allow 4 attempts (as the run with
non-timeout failures shows, complete with the exponential delays
1000, 2000, 4000 ms). -/
theorem C6_timeout_not_retried :
    fetchWithRetry alwaysAbort DEFAULT_RETRY_CONFIG =
      (FetchResult.timeoutError, [], 1) ∧
    DEFAULT_RETRY_CONFIG.maxRetries + 1 = 4 ∧
    fetchWithRetry alwaysOther DEFAULT_RETRY_CONFIG =
      (FetchResult.lastError, [1000, 2000, 4000], 4) := by
  exact ⟨rfl, rfl, rfl⟩

/-- C6 (amended): `fetchWithRetry` retries only non-timeout failures: at
most `maxRetries + 1` fetch attempts are made and the delay slept before
the (n+1)-th attempt equals `min(baseDelay * 2^n, maxDelay)`; but a timeout
(`AbortError`) is never retried — it immediately ends the loop as
`ApiTimeoutError` after the one attempt. -/
theorem C6_retry_policy :
    ∀ {T : Type} (a : Nat → AttemptOutcome T) (cfg : RetryConfig),
      (fetchWithRetry a cfg).2.2 ≤ cfg.maxRetries + 1 ∧
      (∀ k : Nat, k < (fetchWithRetry a cfg).2.1.length →
        (fetchWithRetry a cfg).2.1.get? k =
          some (min (cfg.baseDelay * 2 ^ k) cfg.maxDelay)) ∧
      (a 0 = AttemptOutcome.abortError →
        (fetchWithRetry a cfg).1 = FetchResult.timeoutError ∧
        (fetchWithRetry a cfg).2.2 = 1) := by
  intro T a cfg
  obtain ⟨h1, h2, h3, h4⟩ := fetchWithRetryGo_schedule a cfg cfg.maxRetries 0
  refine ⟨h2, ?_, ?_⟩
  · intro k hk
    have h := h4 k hk
    rw [Nat.zero_add] at h
    exact h.trans (by rw [calculateDelay])
  · intro habort
    unfold fetchWithRetry
    rw [fetchWithRetryGo_abort a cfg 0 cfg.maxRetries habort]
    exact ⟨rfl, rfl⟩

/-- Witness for C6: with persistent non-timeout failures the second back-off
delay is 2000 ms, and with a timing-out first attempt the result is the
timeout error. -/
theorem C6_retry_policy_witness :
    (fetchWithRetry alwaysOther DEFAULT_RETRY_CONFIG).2.1.get? 1 = some 2000 ∧
    (fetchWithRetry alwaysAbort DEFAULT_RETRY_CONFIG).1 =
      FetchResult.timeoutError := by
  constructor
  · have h := (C6_retry_policy alwaysOther DEFAULT_RETRY_CONFIG).2.1 1 (by decide)
    exact h.trans (by decide)
  · exact ((C6_retry_policy alwaysAbort DEFAULT_RETRY_CONFIG).2.2 rfl).1

end Cboe
